import Mathlib

/-!
# Verification of the user-service authorization core

Shallow embedding of the authorization core of the `user-service`
repository (TypeScript) and proofs about it:

* `src/validators/UserValidator.ts` — the field-edit authorizer
  (`validateUpdate`, `checkModifyPermission`, the role-tier allow-lists);
* `src/controllers/AuthController.ts` — token minting (`authenticate`)
  and the bitmask field-disclosure loop (`requestPermissions`);
* `src/utils/Authorize.ts` — the `authorize` / `loadToken` middleware.

JavaScript objects are embedded as ordered association lists of
(key, value) pairs (`Payload`), matching `Object.keys` iteration order.
In-place mutation of the update payload is embedded by returning the
final payload state alongside the decision.  Thrown `ServiceError`s are
embedded as an `Option ServiceError` outcome component.
-/

namespace UserService

/-- A JavaScript primitive value, as far as the authorization core
compares them with strict equality (`===`). -/
inductive Value where
  | vStr (s : String)
  | vNum (n : Int)
  | vBool (b : Bool)
  deriving DecidableEq, Repr

/-- A JavaScript object as the core sees it: an ordered list of
(key, value) pairs, in `Object.keys` insertion order. -/
abbrev Payload := List (String × Value)

/-- `ServiceError` from `src/utils/ServiceError.ts`: an HTTP status code
plus a message. -/
structure ServiceError where
  httpErrorCode : Nat
  message : String
  deriving DecidableEq, Repr

/-- `UserRoleString` enum (referenced from `UserValidator.ts`; values as
given throughout the code and spec). -/
inductive UserRoleString where
  | Kayttaja
  | Jasenvirkailija
  | Yllapitaja
  deriving DecidableEq, Repr

/-- The two attributes of the `modifier : User` argument that
`validateUpdate` reads. -/
structure Modifier where
  id : Int
  role : UserRoleString
  deriving DecidableEq, Repr

/-- `obj[k]` on an embedded object: `some v` when key `k` is present
with value `v`, `none` when the property is `undefined`. -/
def lookupField (p : Payload) (k : String) : Option Value :=
  (p.find? fun kv => kv.1 == k).map Prod.snd

/-- `obj[k] = v` on an embedded object: overwrites the value in place if
the key is present (key order is preserved), appends otherwise. -/
def setField (p : Payload) (k : String) (v : Value) : Payload :=
  if (p.find? fun kv => kv.1 == k).isSome then
    p.map fun kv => if kv.1 == k then (k, v) else kv
  else
    p ++ [(k, v)]

/-- `UserValidator.ts` line 39: columns allowed to be self-edited. -/
def allowedSelfEdit : List String :=
  ["screenName", "email", "residence", "phone", "isHYYMember", "isTKTL",
    "password1", "password2"]

/-- `UserValidator.ts` line 51: columns allowed to be edited by
jäsenvirkailija (`[...allowedSelfEdit]` then push of three more). -/
def allowedJVEdit : List String :=
  allowedSelfEdit ++ ["name", "username", "membership"]

/-- `UserValidator.ts` line 55: columns allowed to be edited by admin
(`[...allowedJVEdit]` then push of two more). -/
def allowedAdminEdit : List String :=
  allowedJVEdit ++ ["role", "createdAt"]

/-- `checkModifyPermission` (`UserValidator.ts` lines 254-267): throws
`ServiceError(403, "Forbidden modify action")` as soon as some key of
`user` is neither found in `allowedEdits` nor equal to `"id"`.
`some e` embeds the thrown error, `none` embeds normal return. -/
def checkModifyPermission (user : Payload) (allowedEdits : List String) :
    Option ServiceError :=
  if user.any fun kv =>
      ((allowedEdits.find? fun allowedEdit => allowedEdit == kv.1).isNone
        && kv.1 != "id") then
    some ⟨403, "Forbidden modify action"⟩
  else
    none

/-- `validateUpdate` lines 133-139: for each key of `newUser`, delete it
when `oldUser[k] !== undefined && oldUser[k] === newUser[k]`. -/
def dropUnchanged (oldUser newUser : Payload) : Payload :=
  newUser.filter fun kv => lookupField oldUser kv.1 != some kv.2

/-- The authorization portion of `validateUpdate` (`UserValidator.ts`
lines 133-160): drop unchanged fields from the payload, dispatch on the
modifier tier, and run `checkModifyPermission` with the tier's
allow-list (self-edit first assigns `newUser.id = userId`).  Returns the
final state of the (mutated-in-place) payload together with the thrown
`ServiceError`, if any. -/
def validateUpdateAuth (userId : Int) (oldUser newUser : Payload)
    (modifier : Modifier) : Payload × Option ServiceError :=
  let newUser1 := dropUnchanged oldUser newUser
  let error := "Forbidden modify action"
  if userId = modifier.id then
    let newUser2 := setField newUser1 "id" (Value.vNum userId)
    (newUser2, checkModifyPermission newUser2 allowedSelfEdit)
  else if userId ≠ modifier.id ∧ modifier.role = UserRoleString.Jasenvirkailija then
    (newUser1, checkModifyPermission newUser1 allowedJVEdit)
  else if userId ≠ modifier.id ∧ modifier.role = UserRoleString.Yllapitaja then
    (newUser1, checkModifyPermission newUser1 allowedAdminEdit)
  else
    (newUser1, some ⟨403, error⟩)

/-! ## `AuthController.ts` -/

/-- Modelled from the spec: the Token Codec (`src/token/Token.ts` is not
under `src/`).  Per §4.1 the token is a signed, self-contained value
binding `subjectId` and `permissionLevel`; signing and serialisation are
abstracted away, so a minted token is embedded as the `ServiceToken`
record it binds. -/
structure ServiceToken where
  subjectId : Int
  permissionLevel : Int
  deriving DecidableEq, Repr

/-- Modelled from the spec: `createToken(subjectId, permissionLevel)`
produces a token binding exactly its two arguments (§4.1). -/
def createToken (subjectId permissionLevel : Int) : ServiceToken :=
  ⟨subjectId, permissionLevel⟩

/-- Modelled from the spec: `decodeToken` recovers the bound pair before
expiry and fails with `InvalidTokenError` after expiry (§4.1, §8);
expiry is passed as an explicit flag. -/
def decodeToken (token : ServiceToken) (expired : Bool) :
    Except String ServiceToken :=
  if expired then Except.error "InvalidTokenError" else Except.ok token

/-- The POST body of `AuthController.authenticate`
(`AuthController.ts` lines 22-27).  A missing field is embedded as the
falsy value of its type (`""` / `0`), exactly what the `!body.x` guards
test. -/
structure AuthBody where
  serviceName : String
  redirectTo : String
  permission : String
  userId : Int
  deriving DecidableEq, Repr

/-- The observable outcome of `AuthController.authenticate`: the HTTP
status with the `ServiceResponse` payload and message it sends. -/
inductive AuthResponse where
  | badRequest (message : String)
  | serverError (message : String)
  | success (token : ServiceToken) (redirectTo : String)
  deriving DecidableEq, Repr

/-- `AuthController.authenticate` (`AuthController.ts` lines 21-38),
parametrised by the token-minting function so that invocation of the
Token Codec is observable: the guard returns
400 `'Invalid POST params'` when any body field is falsy; otherwise the
token is minted by `mint(body.userId, 1)` — the literal `1`, not the
supplied permission — and a thrown minting error becomes a 500. -/
def authenticateWith (mint : Int → Int → Except String ServiceToken)
    (body : AuthBody) : AuthResponse :=
  if body.serviceName == "" || body.redirectTo == "" || body.permission == ""
      || body.userId == 0 then
    AuthResponse.badRequest "Invalid POST params"
  else
    match mint body.userId 1 with
    | Except.error e => AuthResponse.serverError e
    | Except.ok token => AuthResponse.success token body.redirectTo

/-- `AuthController.authenticate` with the (spec-modelled) Token Codec
plugged in. -/
def authenticate (body : AuthBody) : AuthResponse :=
  authenticateWith (fun u p => Except.ok (createToken u p)) body

/-- The field-disclosure loop of `AuthController.requestPermissions`
(`AuthController.ts` lines 93-100), with the running index made
explicit:
`Object.keys(user).forEach((key, idx) => if ((2^idx & mask) == 2^idx) push)`. -/
def selectVisibleAux (mask : Nat) : Payload → Nat → Payload
  | [], _ => []
  | kv :: rest, idx =>
    if (2 ^ idx) &&& mask = 2 ^ idx then
      kv :: selectVisibleAux mask rest (idx + 1)
    else
      selectVisibleAux mask rest (idx + 1)

/-- `selectVisibleFields(user, mask)`: the fields of `user` pushed by
the `requestPermissions` loop, in iteration order. -/
def selectVisibleFields (user : Payload) (mask : Nat) : Payload :=
  selectVisibleAux mask user 0

/-- The spec's wording of the mask evaluator (§4.2): include the key at
ordinal index `i` iff `(mask >> i) & 1 == 1`.  Stated separately from
`selectVisibleFields` so the two can be compared. -/
def specVisibleAux (mask : Nat) : Payload → Nat → Payload
  | [], _ => []
  | kv :: rest, idx =>
    if (mask >>> idx) &&& 1 = 1 then
      kv :: specVisibleAux mask rest (idx + 1)
    else
      specVisibleAux mask rest (idx + 1)

/-- Spec-worded mask evaluator, top level. -/
def specVisibleFields (user : Payload) (mask : Nat) : Payload :=
  specVisibleAux mask user 0

/-! ## `Authorize.ts` -/

/-- The parts of the express request that `authorize` / `loadToken`
read: the `authorization` header and the `cookie` header, each possibly
absent (`undefined`). -/
structure MWRequest where
  authorizationHeader : Option String
  cookieHeader : Option String
  deriving DecidableEq, Repr

/-- JavaScript's `String.prototype.startsWith`, embedded on the
underlying character list so that it is kernel-computable. -/
def jsStartsWith (s p : String) : Bool :=
  s.data.take p.data.length == p.data

/-- The observable outcome of the middleware: a JSON `ServiceResponse`
with a status, a call to `next()` with `req.authorization` set, a plain
`next()` without it, or an uncaught JavaScript exception escaping the
handler. -/
inductive MWOutcome where
  | response (status : Nat) (message : String)
  | nextAuthorized (token : ServiceToken)
  | nextPlain
  | crash (exceptionName : String)
  deriving DecidableEq, Repr

/-- `authorize` (`Authorize.ts` lines 10-22), parametrised by
`stringToServiceToken` (in `src/token/Token.ts`, not under `src/`),
whose failure carries its internal exception message: no token or a
token not starting with `'Bearer '` gives an opaque
401 `'Unauthorized'`; otherwise the decode of `token.slice(7)` either
authorizes or its caught error `e` is sent back as
500 `ServiceResponse(null, e.message)`. -/
def authorize (stringToServiceToken : String → Except String ServiceToken)
    (req : MWRequest) : MWOutcome :=
  match req.authorizationHeader with
  | none => MWOutcome.response 401 "Unauthorized"
  | some token =>
    if ¬ jsStartsWith token "Bearer " then
      MWOutcome.response 401 "Unauthorized"
    else
      match stringToServiceToken (token.drop 7) with
      | Except.ok t => MWOutcome.nextAuthorized t
      | Except.error e => MWOutcome.response 500 e

/-- The cookie half of `loadToken` (`Authorize.ts` lines 35-44):
`req.header('cookie').split('token=')` crashes with a `TypeError` when
the cookie header is `undefined`; with more than one piece the second is
decoded; otherwise plain `next()`. -/
def loadTokenCookie (stringToServiceToken : String → Except String ServiceToken)
    (cookieHeader : Option String) : MWOutcome :=
  match cookieHeader with
  | none => MWOutcome.crash "TypeError"
  | some cookie =>
    let splittedToken := cookie.splitOn "token="
    if splittedToken.length > 1 then
      match stringToServiceToken splittedToken[1]! with
      | Except.ok t => MWOutcome.nextAuthorized t
      | Except.error e => MWOutcome.response 500 e
    else
      MWOutcome.nextPlain

/-- `loadToken` (`Authorize.ts` lines 24-45): a truthy `authorization`
header starting with `'Bearer '` is decoded (success authorizes, caught
error `e` becomes 500 `ServiceResponse(null, e.message)`); any other
request falls through to the cookie half. -/
def loadToken (stringToServiceToken : String → Except String ServiceToken)
    (req : MWRequest) : MWOutcome :=
  match req.authorizationHeader with
  | some token =>
    if token != "" && jsStartsWith token "Bearer " then
      match stringToServiceToken (token.drop 7) with
      | Except.ok t => MWOutcome.nextAuthorized t
      | Except.error e => MWOutcome.response 500 e
    else
      loadTokenCookie stringToServiceToken req.cookieHeader
  | none => loadTokenCookie stringToServiceToken req.cookieHeader

/-! ## Unfolding lemmas for the middleware -/

lemma authorize_some (stringToServiceToken : String → Except String ServiceToken)
    (t : String) (c : Option String) :
    authorize stringToServiceToken ⟨some t, c⟩ =
      if ¬ jsStartsWith t "Bearer " then
        MWOutcome.response 401 "Unauthorized"
      else
        match stringToServiceToken (t.drop 7) with
        | Except.ok tok => MWOutcome.nextAuthorized tok
        | Except.error e => MWOutcome.response 500 e := rfl

lemma loadToken_some (stringToServiceToken : String → Except String ServiceToken)
    (t : String) (c : Option String) :
    loadToken stringToServiceToken ⟨some t, c⟩ =
      if t != "" && jsStartsWith t "Bearer " then
        match stringToServiceToken (t.drop 7) with
        | Except.ok tok => MWOutcome.nextAuthorized tok
        | Except.error e => MWOutcome.response 500 e
      else
        loadTokenCookie stringToServiceToken c := rfl

/-! ## Lemmas about the field-edit authorizer -/

lemma find?_beq_isNone_iff (A : List String) (k : String) :
    ((A.find? fun a => a == k).isNone = true) ↔ k ∉ A := by
  rw [Option.isNone_iff_eq_none, List.find?_eq_none]
  constructor
  · intro h hk
    exact h k hk (by simp)
  · intro h x hx hbeq
    exact h ((eq_of_beq hbeq) ▸ hx)

lemma forbidden_any_iff (user : Payload) (A : List String) :
    ((user.any fun kv =>
        ((A.find? fun allowedEdit => allowedEdit == kv.1).isNone
          && kv.1 != "id")) = true) ↔
      ∃ kv ∈ user, kv.1 ∉ A ∧ kv.1 ≠ "id" := by
  rw [List.any_eq_true]
  constructor
  · rintro ⟨kv, hmem, hp⟩
    rw [Bool.and_eq_true] at hp
    exact ⟨kv, hmem, (find?_beq_isNone_iff A kv.1).mp hp.1, bne_iff_ne.mp hp.2⟩
  · rintro ⟨kv, hmem, hnot, hid⟩
    refine ⟨kv, hmem, ?_⟩
    rw [Bool.and_eq_true]
    exact ⟨(find?_beq_isNone_iff A kv.1).mpr hnot, bne_iff_ne.mpr hid⟩

lemma checkModifyPermission_eq_none_iff (user : Payload) (A : List String) :
    checkModifyPermission user A = none ↔
      ∀ kv ∈ user, kv.1 ≠ "id" → kv.1 ∈ A := by
  unfold checkModifyPermission
  split
  · next h =>
    simp only [reduceCtorEq, false_iff, not_forall]
    obtain ⟨kv, hmem, hnot, hid⟩ := (forbidden_any_iff user A).mp h
    exact ⟨kv, hmem, hid, hnot⟩
  · next h =>
    simp only [true_iff]
    intro kv hmem hid
    by_contra hnot
    exact h ((forbidden_any_iff user A).mpr ⟨kv, hmem, hnot, hid⟩)

lemma checkModifyPermission_eq_some_iff (user : Payload) (A : List String)
    (e : ServiceError) :
    checkModifyPermission user A = some e ↔
      (e = ⟨403, "Forbidden modify action"⟩
        ∧ ∃ kv ∈ user, kv.1 ∉ A ∧ kv.1 ≠ "id") := by
  unfold checkModifyPermission
  split
  · next h =>
    simp only [Option.some_inj]
    constructor
    · intro he
      exact ⟨he.symm, (forbidden_any_iff user A).mp h⟩
    · intro he
      exact he.1.symm
  · next h =>
    simp only [reduceCtorEq, false_iff, not_and]
    intro _ hex
    exact h ((forbidden_any_iff user A).mpr hex)

lemma mem_setField_of_ne (p : Payload) (k : String) (v : Value)
    (kv : String × Value) (hne : kv.1 ≠ k) :
    kv ∈ setField p k v ↔ kv ∈ p := by
  unfold setField
  split
  · rw [List.mem_map]
    constructor
    · rintro ⟨kv', hmem, hf⟩
      by_cases hk : kv'.1 = k
      · rw [if_pos (by simp [hk])] at hf
        exact absurd (congrArg Prod.fst hf.symm) hne
      · rw [if_neg (by simp [hk])] at hf
        exact hf ▸ hmem
    · intro hmem
      exact ⟨kv, hmem, by rw [if_neg (by simp [hne])]⟩
  · rw [List.mem_append, List.mem_singleton]
    constructor
    · rintro (h | h)
      · exact h
      · exact absurd (congrArg Prod.fst h) hne
    · exact Or.inl

lemma self_mem_setField (p : Payload) (k : String) (v : Value) :
    (k, v) ∈ setField p k v := by
  unfold setField
  split
  · next h =>
    rw [Option.isSome_iff_exists] at h
    obtain ⟨kv', hfind⟩ := h
    have hmem : kv' ∈ p := List.mem_of_find?_eq_some hfind
    have hk := List.find?_some hfind
    rw [List.mem_map]
    exact ⟨kv', hmem, by rw [if_pos hk]⟩
  · rw [List.mem_append, List.mem_singleton]
    exact Or.inr rfl

lemma not_mem_dropUnchanged (oldUser newUser : Payload) (kv : String × Value)
    (h : lookupField oldUser kv.1 = some kv.2) :
    kv ∉ dropUnchanged oldUser newUser := by
  unfold dropUnchanged
  rw [List.mem_filter]
  rintro ⟨-, hp⟩
  rw [bne_iff_ne] at hp
  exact hp h

lemma dropUnchanged_eq_nil (oldUser newUser : Payload)
    (h : ∀ kv ∈ newUser, lookupField oldUser kv.1 = some kv.2) :
    dropUnchanged oldUser newUser = [] := by
  unfold dropUnchanged
  rw [List.filter_eq_nil_iff]
  intro kv hmem
  rw [bne_iff_ne, not_not]
  exact h kv hmem

lemma validateUpdateAuth_self (userId : Int) (oldUser newUser : Payload)
    (m : Modifier) (h : userId = m.id) :
    validateUpdateAuth userId oldUser newUser m =
      (setField (dropUnchanged oldUser newUser) "id" (Value.vNum userId),
        checkModifyPermission
          (setField (dropUnchanged oldUser newUser) "id" (Value.vNum userId))
          allowedSelfEdit) := by
  simp [validateUpdateAuth, h]

lemma validateUpdateAuth_jv (userId : Int) (oldUser newUser : Payload)
    (m : Modifier) (h : userId ≠ m.id)
    (hr : m.role = UserRoleString.Jasenvirkailija) :
    validateUpdateAuth userId oldUser newUser m =
      (dropUnchanged oldUser newUser,
        checkModifyPermission (dropUnchanged oldUser newUser) allowedJVEdit) := by
  simp [validateUpdateAuth, h, hr]

lemma validateUpdateAuth_admin (userId : Int) (oldUser newUser : Payload)
    (m : Modifier) (h : userId ≠ m.id)
    (hr : m.role = UserRoleString.Yllapitaja) :
    validateUpdateAuth userId oldUser newUser m =
      (dropUnchanged oldUser newUser,
        checkModifyPermission (dropUnchanged oldUser newUser) allowedAdminEdit) := by
  simp [validateUpdateAuth, h, hr]

lemma validateUpdateAuth_other (userId : Int) (oldUser newUser : Payload)
    (m : Modifier) (h : userId ≠ m.id)
    (hr1 : m.role ≠ UserRoleString.Jasenvirkailija)
    (hr2 : m.role ≠ UserRoleString.Yllapitaja) :
    validateUpdateAuth userId oldUser newUser m =
      (dropUnchanged oldUser newUser, some ⟨403, "Forbidden modify action"⟩) := by
  simp [validateUpdateAuth, h, hr1, hr2]

/-! ## Lemmas about the permission-mask evaluator -/

lemma pow_and_eq_iff_testBit (mask i : Nat) :
    ((2 ^ i) &&& mask = 2 ^ i) ↔ mask.testBit i = true := by
  rw [Nat.two_pow_and]
  cases h : mask.testBit i
  · simp only [Bool.toNat_false, Nat.mul_zero, Bool.false_eq_true, iff_false]
    intro hc
    have := Nat.two_pow_pos i
    omega
  · simp

lemma shift_and_one_iff_testBit (mask i : Nat) :
    ((mask >>> i) &&& 1 = 1) ↔ mask.testBit i = true := by
  rw [Nat.and_one_is_mod, Nat.shiftRight_eq_div_pow, Nat.testBit_to_div_mod]
  simp

lemma selectVisibleAux_eq_specVisibleAux (mask : Nat) (l : Payload) (idx : Nat) :
    selectVisibleAux mask l idx = specVisibleAux mask l idx := by
  induction l generalizing idx with
  | nil => rfl
  | cons kv rest ih =>
    unfold selectVisibleAux specVisibleAux
    have h : ((2 ^ idx) &&& mask = 2 ^ idx) ↔ ((mask >>> idx) &&& 1 = 1) := by
      rw [pow_and_eq_iff_testBit, shift_and_one_iff_testBit]
    by_cases hc : (2 ^ idx) &&& mask = 2 ^ idx
    · rw [if_pos hc, if_pos (h.mp hc), ih]
    · rw [if_neg hc, if_neg (fun hx => hc (h.mpr hx)), ih]

lemma selectVisibleAux_zero (l : Payload) (idx : Nat) :
    selectVisibleAux 0 l idx = [] := by
  induction l generalizing idx with
  | nil => rfl
  | cons kv rest ih =>
    unfold selectVisibleAux
    rw [if_neg, ih]
    rw [Nat.and_zero]
    intro hc
    have := Nat.two_pow_pos idx
    omega

lemma selectVisibleAux_congr (m₁ m₂ : Nat) (l : Payload) (idx : Nat)
    (h : ∀ j, idx ≤ j → j < idx + l.length → m₁.testBit j = m₂.testBit j) :
    selectVisibleAux m₁ l idx = selectVisibleAux m₂ l idx := by
  induction l generalizing idx with
  | nil => rfl
  | cons kv rest ih =>
    unfold selectVisibleAux
    have hbit : m₁.testBit idx = m₂.testBit idx :=
      h idx le_rfl (by simp)
    have hiff : ((2 ^ idx) &&& m₁ = 2 ^ idx) ↔ ((2 ^ idx) &&& m₂ = 2 ^ idx) := by
      rw [pow_and_eq_iff_testBit, pow_and_eq_iff_testBit, hbit]
    have hrest : selectVisibleAux m₁ rest (idx + 1) =
        selectVisibleAux m₂ rest (idx + 1) := by
      apply ih
      intro j hj1 hj2
      exact h j (by omega) (by simp at hj2 ⊢; omega)
    by_cases hc : (2 ^ idx) &&& m₁ = 2 ^ idx
    · rw [if_pos hc, if_pos (hiff.mp hc), hrest]
    · rw [if_neg hc, if_neg (fun hx => hc (hiff.mpr hx)), hrest]

/-! ## Claim theorems -/

/-- C1: whenever the proposed payload contains a field outside the
allowed set (other than `"id"`), `checkModifyPermission` rejects with
the fixed 403 "Forbidden modify action" error, which names no field;
and every rejection produced by the update authorizer carries exactly
that same error, so no partial outcome (and no field name) is ever
surfaced. -/
theorem C1_forbidden_field_rejects_entire_update
    (user : Payload) (allowedEdits : List String)
    (h : ∃ kv ∈ user, kv.1 ∉ allowedEdits ∧ kv.1 ≠ "id") :
    checkModifyPermission user allowedEdits
        = some ⟨403, "Forbidden modify action"⟩
      ∧ ∀ (userId : Int) (oldUser newUser : Payload) (m : Modifier)
          (e : ServiceError),
          (validateUpdateAuth userId oldUser newUser m).2 = some e →
          e = ⟨403, "Forbidden modify action"⟩ := by
  constructor
  · exact (checkModifyPermission_eq_some_iff user allowedEdits _).mpr ⟨rfl, h⟩
  · intro userId oldUser newUser m e he
    by_cases hs : userId = m.id
    · rw [validateUpdateAuth_self userId oldUser newUser m hs] at he
      exact ((checkModifyPermission_eq_some_iff _ _ _).mp he).1
    · by_cases hjv : m.role = UserRoleString.Jasenvirkailija
      · rw [validateUpdateAuth_jv userId oldUser newUser m hs hjv] at he
        exact ((checkModifyPermission_eq_some_iff _ _ _).mp he).1
      · by_cases had : m.role = UserRoleString.Yllapitaja
        · rw [validateUpdateAuth_admin userId oldUser newUser m hs had] at he
          exact ((checkModifyPermission_eq_some_iff _ _ _).mp he).1
        · rw [validateUpdateAuth_other userId oldUser newUser m hs hjv had] at he
          exact (Option.some_inj.mp he).symm

/-- Witness for C1 at a concrete input. -/
theorem C1_forbidden_field_rejects_entire_update_witness :
    checkModifyPermission [("role", Value.vStr "Yllapitaja")] allowedSelfEdit
      = some ⟨403, "Forbidden modify action"⟩ :=
  (C1_forbidden_field_rejects_entire_update
    [("role", Value.vStr "Yllapitaja")] allowedSelfEdit
    ⟨("role", Value.vStr "Yllapitaja"), by decide, by decide, by decide⟩).1

/-- C2: under a self-edit (`modifier.id = userId`), the update passes
the authorizer exactly when every changed field other than `"id"` lies
in `allowedSelfEdit`; in particular a self-edit of {email, phone} is
accepted and a self-edit proposing {role} is rejected with the 403
Forbidden error, whatever the modifier's own role is. -/
theorem C2_self_edit_allow_list
    (userId : Int) (oldUser newUser : Payload) (m : Modifier)
    (hself : userId = m.id) :
    ((validateUpdateAuth userId oldUser newUser m).2 = none ↔
        ∀ kv ∈ dropUnchanged oldUser newUser, kv.1 ≠ "id" →
          kv.1 ∈ allowedSelfEdit)
      ∧ (∀ role : UserRoleString,
          (validateUpdateAuth 1
            [("email", Value.vStr "a@x"), ("phone", Value.vStr "040")]
            [("email", Value.vStr "b@x"), ("phone", Value.vStr "041")]
            ⟨1, role⟩).2 = none)
      ∧ (∀ role : UserRoleString,
          (validateUpdateAuth 1
            [("role", Value.vStr "Kayttaja")]
            [("role", Value.vStr "Yllapitaja")]
            ⟨1, role⟩).2 = some ⟨403, "Forbidden modify action"⟩) := by
  refine ⟨?_, fun role => rfl, fun role => rfl⟩
  rw [validateUpdateAuth_self userId oldUser newUser m hself]
  rw [checkModifyPermission_eq_none_iff]
  constructor
  · intro h kv hmem hid
    exact h kv ((mem_setField_of_ne _ _ _ kv hid).mpr hmem) hid
  · intro h kv hmem hid
    exact h kv ((mem_setField_of_ne _ _ _ kv hid).mp hmem) hid

/-- Witness for C2 at a concrete input. -/
theorem C2_self_edit_allow_list_witness :
    (validateUpdateAuth 1 [("email", Value.vStr "a@x")]
      [("email", Value.vStr "c@x")] ⟨1, UserRoleString.Kayttaja⟩).2 = none :=
  ((C2_self_edit_allow_list 1 [("email", Value.vStr "a@x")]
    [("email", Value.vStr "c@x")] ⟨1, UserRoleString.Kayttaja⟩ rfl).1).mpr
    (by decide)

/-- C3: on a non-self target, a Jasenvirkailija may change exactly the
self-edit set plus {name, username, membership}, a Yllapitaja exactly
that elevated set plus {role, createdAt}, and any other role is
rejected with the 403 Forbidden error; in particular a Jasenvirkailija
proposing {role} on another user is rejected. -/
theorem C3_staff_tier_allow_lists
    (userId : Int) (oldUser newUser : Payload) (m : Modifier)
    (hdiff : userId ≠ m.id) :
    allowedJVEdit = allowedSelfEdit ++ ["name", "username", "membership"]
      ∧ allowedAdminEdit = allowedJVEdit ++ ["role", "createdAt"]
      ∧ (m.role = UserRoleString.Jasenvirkailija →
          ((validateUpdateAuth userId oldUser newUser m).2 = none ↔
            ∀ kv ∈ dropUnchanged oldUser newUser, kv.1 ≠ "id" →
              kv.1 ∈ allowedJVEdit))
      ∧ (m.role = UserRoleString.Yllapitaja →
          ((validateUpdateAuth userId oldUser newUser m).2 = none ↔
            ∀ kv ∈ dropUnchanged oldUser newUser, kv.1 ≠ "id" →
              kv.1 ∈ allowedAdminEdit))
      ∧ (m.role = UserRoleString.Kayttaja →
          (validateUpdateAuth userId oldUser newUser m).2
            = some ⟨403, "Forbidden modify action"⟩)
      ∧ (validateUpdateAuth 2 [] [("role", Value.vStr "Yllapitaja")]
          ⟨1, UserRoleString.Jasenvirkailija⟩).2
          = some ⟨403, "Forbidden modify action"⟩ := by
  refine ⟨rfl, rfl, ?_, ?_, ?_, rfl⟩
  · intro hr
    rw [validateUpdateAuth_jv userId oldUser newUser m hdiff hr]
    exact checkModifyPermission_eq_none_iff _ _
  · intro hr
    rw [validateUpdateAuth_admin userId oldUser newUser m hdiff hr]
    exact checkModifyPermission_eq_none_iff _ _
  · intro hr
    rw [validateUpdateAuth_other userId oldUser newUser m hdiff
      (by rw [hr]; intro hc; exact UserRoleString.noConfusion hc)
      (by rw [hr]; intro hc; exact UserRoleString.noConfusion hc)]

/-- Witness for C3 at a concrete input. -/
theorem C3_staff_tier_allow_lists_witness :
    (validateUpdateAuth 2 [] [("username", Value.vStr "u")]
      ⟨1, UserRoleString.Jasenvirkailija⟩).2 = none :=
  ((C3_staff_tier_allow_lists 2 [] [("username", Value.vStr "u")]
    ⟨1, UserRoleString.Jasenvirkailija⟩ (by decide)).2.2.1 rfl).mpr (by decide)

lemma selectVisibleAux_enumFrom (mask : Nat) (l : Payload) (idx : Nat) :
    selectVisibleAux mask l idx
      = ((l.enumFrom idx).filter fun p => mask.testBit p.1).map Prod.snd := by
  induction l generalizing idx with
  | nil => rfl
  | cons kv rest ih =>
    unfold selectVisibleAux
    rw [List.enumFrom_cons]
    by_cases hc : mask.testBit idx = true
    · rw [if_pos ((pow_and_eq_iff_testBit mask idx).mpr hc),
        List.filter_cons_of_pos (by simpa using hc), List.map_cons, ih]
    · rw [if_neg (fun hx => hc ((pow_and_eq_iff_testBit mask idx).mp hx)),
        List.filter_cons_of_neg (by simpa using hc), ih]

/-- C4: the disclosure loop returns exactly the fields of the user
whose ordinal index `i` (in key order) has bit `i` of the mask set,
in key order — it agrees with the spec's `(mask >> i) & 1 == 1`
formulation and with the direct `testBit` filter over the enumerated
keys; mask 0 yields the empty result, and bits beyond the number of
fields are ignored (only `mask % 2 ^ length` matters). -/
theorem C4_mask_selects_by_ordinal_bit (user : Payload) (mask : Nat) :
    selectVisibleFields user mask = specVisibleFields user mask
      ∧ selectVisibleFields user mask
          = (user.enum.filter fun p => mask.testBit p.1).map Prod.snd
      ∧ selectVisibleFields user 0 = []
      ∧ selectVisibleFields user (mask % 2 ^ user.length)
          = selectVisibleFields user mask := by
  refine ⟨selectVisibleAux_eq_specVisibleAux mask user 0,
    selectVisibleAux_enumFrom mask user 0,
    selectVisibleAux_zero user 0, ?_⟩
  apply selectVisibleAux_congr
  intro j hj1 hj2
  rw [Nat.testBit_mod_two_pow]
  simp only [Nat.zero_add] at hj2
  simp [hj2]

/-- C5: a proposed field whose value strictly equals the stored value
never survives the pre-check drop; and when every proposed field equals
its stored value, nothing remains to authorize, so each of the three
modifier tiers (self, Jasenvirkailija, Yllapitaja) accepts the update
as a no-op. -/
theorem C5_noop_fields_dropped_before_check
    (userId : Int) (oldUser newUser : Payload) (m : Modifier)
    (hnoop : ∀ kv ∈ newUser, lookupField oldUser kv.1 = some kv.2) :
    (∀ (old new : Payload) (kv : String × Value),
        lookupField old kv.1 = some kv.2 → kv ∉ dropUnchanged old new)
      ∧ dropUnchanged oldUser newUser = []
      ∧ (userId = m.id →
          (validateUpdateAuth userId oldUser newUser m).2 = none)
      ∧ (userId ≠ m.id → m.role = UserRoleString.Jasenvirkailija →
          (validateUpdateAuth userId oldUser newUser m).2 = none)
      ∧ (userId ≠ m.id → m.role = UserRoleString.Yllapitaja →
          (validateUpdateAuth userId oldUser newUser m).2 = none) := by
  refine ⟨fun old new kv h => not_mem_dropUnchanged old new kv h,
    dropUnchanged_eq_nil oldUser newUser hnoop, ?_, ?_, ?_⟩
  · intro h
    rw [validateUpdateAuth_self userId oldUser newUser m h,
      dropUnchanged_eq_nil oldUser newUser hnoop]
    simp [setField, checkModifyPermission]
  · intro h hr
    rw [validateUpdateAuth_jv userId oldUser newUser m h hr,
      dropUnchanged_eq_nil oldUser newUser hnoop]
    rfl
  · intro h hr
    rw [validateUpdateAuth_admin userId oldUser newUser m h hr,
      dropUnchanged_eq_nil oldUser newUser hnoop]
    rfl

/-- Witness for C5 at a concrete input. -/
theorem C5_noop_fields_dropped_before_check_witness :
    (validateUpdateAuth 1 [("email", Value.vStr "a")]
      [("email", Value.vStr "a")] ⟨1, UserRoleString.Kayttaja⟩).2 = none :=
  (C5_noop_fields_dropped_before_check 1 [("email", Value.vStr "a")]
    [("email", Value.vStr "a")] ⟨1, UserRoleString.Kayttaja⟩
    (by decide)).2.2.1 rfl

/-- C6 counterexample: with a valid body supplying permission "2", the
minted token binds permissionLevel 1, not the supplied value 2 — the
controller ignores the supplied permission. -/
theorem C6_counterexample_supplied_level_ignored :
    authenticate
        { serviceName := "s", redirectTo := "r", permission := "2", userId := 5 }
        = AuthResponse.success { subjectId := 5, permissionLevel := 1 } "r"
      ∧ ({ subjectId := 5, permissionLevel := 1 } : ServiceToken).permissionLevel
          ≠ 2 :=
  ⟨rfl, by decide⟩

/-- C6 (amended): for every body with non-empty fields, the minted
token binds the supplied userId as subjectId and the constant
permissionLevel 1 (ignoring the supplied permission), and decoding it
before expiry recovers exactly that pair. -/
theorem C6_token_binds_userId_and_constant_level
    (body : AuthBody) (hs : body.serviceName ≠ "")
    (hr : body.redirectTo ≠ "") (hp : body.permission ≠ "")
    (hu : body.userId ≠ 0) :
    authenticate body
        = AuthResponse.success (createToken body.userId 1) body.redirectTo
      ∧ decodeToken (createToken body.userId 1) false
          = Except.ok { subjectId := body.userId, permissionLevel := 1 } := by
  constructor
  · unfold authenticate authenticateWith
    rw [if_neg (by simp [hs, hr, hp, hu])]
  · rfl

/-- Witness for the amended C6 at a concrete input. -/
theorem C6_token_binds_userId_and_constant_level_witness :
    authenticate
        { serviceName := "s", redirectTo := "r", permission := "1", userId := 7 }
        = AuthResponse.success (createToken 7 1) "r"
      ∧ decodeToken (createToken 7 1) false
          = Except.ok { subjectId := 7, permissionLevel := 1 } :=
  C6_token_binds_userId_and_constant_level
    { serviceName := "s", redirectTo := "r", permission := "1", userId := 7 }
    (by decide) (by decide) (by decide) (by decide)

/-- C7 counterexample: a token decode failure in `authorize` is sent to
the caller as a 500 response whose message is exactly the decoder's
internal exception message — the detail is echoed, not kept opaque. -/
theorem C7_counterexample_detail_echoed :
    authorize (fun _ => Except.error "jwt-internal-failure-detail")
        { authorizationHeader := some "Bearer abc", cookieHeader := none }
      = MWOutcome.response 500 "jwt-internal-failure-detail" := by
  rw [authorize_some, if_neg (fun hn => hn (by decide))]

/-- C7 (amended): a decode failure reaching `authorize` or `loadToken`
through a Bearer authorization header is surfaced as a 500 response
echoing the decoder's exception message verbatim; only a request with a
missing authorization header gets the opaque 401 Unauthorized from
`authorize`. -/
theorem C7_decode_failure_echoes_detail
    (decode : String → Except String ServiceToken) (t msg : String)
    (c : Option String) (hb : jsStartsWith t "Bearer " = true)
    (he : decode (t.drop 7) = Except.error msg) :
    authorize decode { authorizationHeader := some t, cookieHeader := c }
        = MWOutcome.response 500 msg
      ∧ loadToken decode { authorizationHeader := some t, cookieHeader := c }
          = MWOutcome.response 500 msg
      ∧ (∀ (d : String → Except String ServiceToken) (c' : Option String),
          authorize d { authorizationHeader := none, cookieHeader := c' }
            = MWOutcome.response 401 "Unauthorized") := by
  have hne : (t != "") = true := by
    rw [bne_iff_ne]
    intro h0
    rw [h0] at hb
    exact absurd hb (by decide)
  refine ⟨?_, ?_, fun d c' => rfl⟩
  · rw [authorize_some, if_neg (fun hn => hn hb), he]
  · rw [loadToken_some, if_pos (by rw [Bool.and_eq_true]; exact ⟨hne, hb⟩), he]

/-- Witness for the amended C7 at a concrete input. -/
theorem C7_decode_failure_echoes_detail_witness :
    authorize (fun _ => Except.error "detail")
        { authorizationHeader := some "Bearer x", cookieHeader := none }
      = MWOutcome.response 500 "detail" :=
  (C7_decode_failure_echoes_detail (fun _ => Except.error "detail")
    "Bearer x" "detail" none (by decide) rfl).1

/-- C8: whenever userId is zero or the permission field is empty, the
authenticate handler answers 400 "Invalid POST params" whatever the
minting function is — so the Token Codec is never consulted. -/
theorem C8_missing_params_reject_without_minting
    (mint : Int → Int → Except String ServiceToken) (body : AuthBody)
    (h : body.userId = 0 ∨ body.permission = "") :
    authenticateWith mint body = AuthResponse.badRequest "Invalid POST params" := by
  unfold authenticateWith
  rw [if_pos]
  rcases h with h | h <;> simp [h]

/-- Witness for C8 at a concrete input. -/
theorem C8_missing_params_reject_without_minting_witness :
    authenticateWith (fun u p => Except.ok ⟨u, p⟩)
        { serviceName := "s", redirectTo := "r", permission := "", userId := 5 }
      = AuthResponse.badRequest "Invalid POST params" :=
  C8_missing_params_reject_without_minting (fun u p => Except.ok ⟨u, p⟩)
    { serviceName := "s", redirectTo := "r", permission := "", userId := 5 }
    (Or.inr rfl)

/-- C9: a request with no cookie header and no authorization header
(or one not starting with "Bearer ") makes `loadToken` neither respond
nor call the next handler: it crashes with an uncaught TypeError from
splitting the undefined cookie header. -/
theorem C9_loadToken_crashes_without_token_sources
    (decode : String → Except String ServiceToken) :
    loadToken decode { authorizationHeader := none, cookieHeader := none }
        = MWOutcome.crash "TypeError"
      ∧ ∀ t : String, jsStartsWith t "Bearer " = false →
          loadToken decode { authorizationHeader := some t, cookieHeader := none }
            = MWOutcome.crash "TypeError" := by
  refine ⟨rfl, ?_⟩
  intro t ht
  rw [loadToken_some, if_neg]
  · rfl
  · intro hc
    rw [Bool.and_eq_true] at hc
    rw [ht] at hc
    exact absurd hc.2 (by decide)

/-- Witness for C9 at a concrete input. -/
theorem C9_loadToken_crashes_without_token_sources_witness :
    loadToken (fun _ => Except.error "e")
        { authorizationHeader := some "Basic abc", cookieHeader := none }
      = MWOutcome.crash "TypeError" :=
  (C9_loadToken_crashes_without_token_sources
    (fun _ => Except.error "e")).2 "Basic abc" (by decide)

/-- C10: the authorizer mutates the proposed payload in place — a key
whose value equals the stored value is deleted and, on the self-edit
path, the id field is assigned — and the mutated payload is what
remains even when the update is rejected, as the concrete rejected
instance shows. -/
theorem C10_payload_mutated_even_on_rejection
    (userId : Int) (oldUser newUser : Payload) (m : Modifier)
    (kv : String × Value) (hself : userId = m.id) (_hmem : kv ∈ newUser)
    (heq : lookupField oldUser kv.1 = some kv.2) (hid : kv.1 ≠ "id") :
    kv ∉ (validateUpdateAuth userId oldUser newUser m).1
      ∧ ("id", Value.vNum userId) ∈ (validateUpdateAuth userId oldUser newUser m).1
      ∧ validateUpdateAuth 1 [("email", Value.vStr "a")]
          [("email", Value.vStr "a"), ("role", Value.vStr "admin")]
          ⟨1, UserRoleString.Kayttaja⟩
          = ([("role", Value.vStr "admin"), ("id", Value.vNum 1)],
              some ⟨403, "Forbidden modify action"⟩)
      ∧ ([("role", Value.vStr "admin"), ("id", Value.vNum 1)] : Payload)
          ≠ [("email", Value.vStr "a"), ("role", Value.vStr "admin")] := by
  rw [validateUpdateAuth_self userId oldUser newUser m hself]
  refine ⟨?_, self_mem_setField _ _ _, rfl, by decide⟩
  intro hmem2
  exact not_mem_dropUnchanged oldUser newUser kv heq
    ((mem_setField_of_ne _ _ _ kv hid).mp hmem2)

/-- Witness for C10 at a concrete input. -/
theorem C10_payload_mutated_even_on_rejection_witness :
    ("email", Value.vStr "a") ∉
      (validateUpdateAuth 1 [("email", Value.vStr "a")]
        [("email", Value.vStr "a"), ("role", Value.vStr "admin")]
        ⟨1, UserRoleString.Kayttaja⟩).1 :=
  (C10_payload_mutated_even_on_rejection 1 [("email", Value.vStr "a")]
    [("email", Value.vStr "a"), ("role", Value.vStr "admin")]
    ⟨1, UserRoleString.Kayttaja⟩ ("email", Value.vStr "a")
    rfl (by decide) (by decide) (by decide)).1

end UserService
